import Mathlib

/-!
Verification development for an Imgur bulk-deletion automation script
(single Python source, main.py).  The definitions below are a shallow
embedding of the script: pure string helpers mirror Python string
operations, the post classifier mirrors the is_image / is_album dispatch
inside delete_one, the link extractor mirrors find_post_links_sorted,
the deletion drivers mirror delete_one and delete_post_container with the
page modelled as an environment of control visibilities plus a trace of
the clicks actually performed, and the orchestration loop mirrors the
while loop of main with fuel-indexed recursion.  Timeouts and exceptions
raised while locating an element are modelled as the element not being
visible, which is exactly how safe_click treats them.
-/

/-- True when the character list p occurs at the start of s
(Python str.startswith). -/
def listStartsWith : List Char → List Char → Bool
  | _, [] => true
  | [], _ :: _ => false
  | a :: s, b :: p => a == b && listStartsWith s p

/-- True when the character list p occurs somewhere inside s
(the Python substring test p in s). -/
def containsSeg : List Char → List Char → Bool
  | s, p =>
    if listStartsWith s p then true
    else
      match s with
      | [] => false
      | _ :: rest => containsSeg rest p

/-- Characters of s up to (excluding) the first occurrence of c
(Python s.split(c)[0] for a one-character separator). -/
def takeUntil (c : Char) : List Char → List Char
  | [] => []
  | a :: rest => if a == c then [] else a :: takeUntil c rest

/-- Helper for lastSegment: cur is the segment accumulated since the most
recent separator. -/
def lastSegAux (cur : List Char) : List Char → List Char
  | [] => cur
  | c :: rest => if c == '/' then lastSegAux [] rest else lastSegAux (cur ++ [c]) rest

/-- Characters after the last slash of s (Python s.split("/")[-1]). -/
def lastSegment (s : List Char) : List Char := lastSegAux [] s

/-- Python p in s on strings. -/
def strContains (s p : String) : Bool := containsSeg s.toList p.toList

/-- Python s.startswith(p) on strings, routed through the list model so
that every string operation in this file reduces in the kernel. -/
def strStarts (s p : String) : Bool := listStartsWith s.toList p.toList

/-- Python s.lower(), restricted to the ASCII lowering the script relies
on for its marker substrings. -/
def strLower (s : String) : String := ⟨s.toList.map Char.toLower⟩

/-- main.py line 568: is_album is true when the href starts with /a/ or
/gallery/. -/
def is_album (href : String) : Bool :=
  strStarts href "/a/" || strStarts href "/gallery/"

/-- main.py line 569: is_image is true when the href contains /image/ or
starts with a slash, has a 7-character final path segment and is not an
album href. -/
def is_image (href : String) : Bool :=
  strContains href "/image/" ||
    (strStarts href "/" && (lastSegment href.toList).length == 7 && !is_album href)

/-- The three post kinds the script distinguishes. -/
inductive PostKind where
  | Image
  | Album
  | Other
deriving DecidableEq

/-- The classifier as delete_one actually dispatches (lines 573, 681,
716): the image test runs first, then the album test, else Other. -/
def postKind (href : String) : PostKind :=
  if is_image href then .Image
  else if is_album href then .Album
  else .Other

/-- An anchor element of the grid DOM as find_post_links_sorted observes
it: its raw href attribute, whether the visibility probe succeeds (a
probe that raises is treated as not visible, exactly like the except
branches at lines 430-431), and its bounding box when one is attached
(x, y in CSS pixels, modelled as rationals). -/
structure Anchor where
  href : String
  visible : Bool
  box : Option (ℚ × ℚ)
deriving DecidableEq

/-- A post link produced by the extractor: normalized href plus the
bounding-box corner used for ordering. -/
structure Item where
  href : String
  x : ℚ
  y : ℚ
deriving DecidableEq

/-- main.py lines 363-366: path starts that are never post links. -/
def badHrefStarts : List String :=
  ["/upload", "/notifications", "/settings", "/account/",
   "/user/", "/t/", "/topics", "/privacy", "/terms", "/arcade"]

/-- Python href.startswith(BAD_PREFIXES): true when the href starts with
any of the blocklisted path starts. -/
def hasBadStart (h : String) : Bool := badHrefStarts.any (fun p => strStarts h p)

/-- main.py line 362, POST_HREF_PAT: the href matches
/(gallery/ | a/ | post/ | image/ | 5-or-more-alphanumerics) at its start.
Since re.search only needs a match at the anchored position, the
5-or-more case holds exactly when the 5 characters after the slash exist
and are alphanumeric. -/
def postHrefOk (h : String) : Bool :=
  strStarts h "/gallery/" || strStarts h "/a/" || strStarts h "/post/" ||
    strStarts h "/image/" ||
    (strStarts h "/" &&
      ((h.toList.drop 1).take 5).length == 5 &&
      ((h.toList.drop 1).take 5).all Char.isAlphanum)

/-- main.py line 432: strip the fragment then the query string. -/
def normalizeHref (h : String) : String :=
  ⟨takeUntil '?' (takeUntil '#' h.toList)⟩

/-- main.py lines 433-435 folded into one test: the normalized href must
start with a slash, not start with a blocklisted path, and match the
post-link pattern. -/
def hrefAccepted (h : String) : Bool :=
  strStarts h "/" && !hasBadStart h && postHrefOk h

/-- One anchor of the loop body at lines 425-444: skip invisible
anchors, normalize the href, apply the href filters, skip anchors
without a bounding box, and otherwise produce the item. -/
def anchorToItem (a : Anchor) : Option Item :=
  if a.visible = false then none
  else if hrefAccepted (normalizeHref a.href) = false then none
  else
    match a.box with
    | none => none
    | some (x, y) => some ⟨normalizeHref a.href, x, y⟩

/-- Python round() on a rational: round half to even.  With f the floor
of q, the fractional part compares to one half exactly as
2 * (num - f * den) compares to den. -/
def pyRound (q : ℚ) : ℤ :=
  let f : ℤ := Int.fdiv q.num q.den
  let t : ℤ := 2 * (q.num - f * (q.den : ℤ))
  if t < (q.den : ℤ) then f
  else if (q.den : ℤ) < t then f + 1
  else if f % 2 = 0 then f else f + 1

/-- The sort key of line 447: (round(y), round(x)). -/
def keyOf (i : Item) : ℤ × ℤ := (pyRound i.y, pyRound i.x)

/-- Lexicographic order on the sort keys: the ordering relation the
stable sort of line 447 uses. -/
def itemLe (a b : Item) : Prop :=
  (keyOf a).1 < (keyOf b).1 ∨
    ((keyOf a).1 = (keyOf b).1 ∧ (keyOf a).2 ≤ (keyOf b).2)

instance : DecidableRel itemLe := fun a b => by
  unfold itemLe; exact inferInstance

instance : IsTotal Item itemLe := by
  constructor
  intro a b
  unfold itemLe
  omega

instance : IsTrans Item itemLe := by
  constructor
  intro a b c hab hbc
  unfold itemLe at *
  omega

/-- main.py lines 448-452: walk the sorted list keeping the first item
for each href; seen is the set of hrefs already emitted. -/
def dedupeByHref : List Item → List String → List Item
  | [], _ => []
  | i :: rest, seen =>
    if i.href ∈ seen then dedupeByHref rest seen
    else i :: dedupeByHref rest (i.href :: seen)

/-- main.py lines 413-453, find_post_links_sorted: filter the anchors,
stable-sort by (round(y), round(x)), then de-duplicate by href keeping
the first occurrence. -/
def find_post_links_sorted (anchors : List Anchor) : List Item :=
  dedupeByHref (List.insertionSort itemLe (anchors.filterMap anchorToItem)) []

/-- The page observations made by the verification stage of delete_one
(lines 875-924): the rendered content and current URL read while no
confirmation was seen, the content read again after the URL diverged,
and the observations of the final re-navigation to the post URL
(gotoFails models the TimeoutError branch of line 913). -/
structure VerifyEnv where
  content1 : String
  url1 : String
  content2 : String
  gotoFails : Bool
  content3 : String
  url3 : String
deriving DecidableEq

/-- Visibility of each logical control delete_one and
delete_post_container probe for, one flag per probe-and-fallback chain
(the chain succeeds exactly when some selector locates a visible
element), plus the verification observations. -/
structure PageEnv where
  deleteImageBtnVisible : Bool
  cancelVisible : Bool
  yesDeleteItVisible : Bool
  deletePostVisible : Bool
  deletePostOnlyConfirmVisible : Bool
  deletePostConfirmVisible : Bool
  threeDotsVisible : Bool
  deleteImageMenuVisible : Bool
  deleteFromAccountVisible : Bool
  confirmVisible : Bool
  verify : VerifyEnv
deriving DecidableEq

/-- Result of delete_post_container, instrumented: initiated is the
Boolean the function returns (line 550), postClicked and confirmClicked
are its delete_post_clicked and confirmation_clicked locals, and clicks
lists the controls actually clicked (safe_click performs no click in
dry-run mode, lines 461-467). -/
structure ContainerRes where
  initiated : Bool
  postClicked : Bool
  confirmClicked : Bool
  clicks : List String
deriving DecidableEq

/-- main.py lines 472-552, delete_post_container: activate the Delete
post control, then try the modal confirmation, preferring the Delete
Post Only choice over the plain Delete Post choice; the function
returns confirmation_clicked or delete_post_clicked. -/
def delete_post_container (env : PageEnv) (dry_run : Bool) : ContainerRes :=
  let delete_post_clicked := env.deletePostVisible
  if delete_post_clicked then
    let confOnly := env.deletePostOnlyConfirmVisible
    let confirmation_clicked := confOnly || env.deletePostConfirmVisible
    { initiated := confirmation_clicked || delete_post_clicked
      postClicked := delete_post_clicked
      confirmClicked := confirmation_clicked
      clicks :=
        (if dry_run then [] else ["Delete post"]) ++
          (if confirmation_clicked && !dry_run then
            (if confOnly then ["Delete Post Only"] else ["Delete Post"])
          else []) }
  else ⟨false, false, false, []⟩

/-- Indicators of lines 884 and 907: markers the script searches for in
lowercased page content. -/
def hasRemovedText (c : String) : Bool :=
  strContains c "404" || strContains c "not found" || strContains c "deleted"

/-- Markers of line 907 for the final re-navigation check. -/
def hasNotFoundText (c : String) : Bool :=
  strContains c "404" || strContains c "not found" ||
    strContains c "page doesn\x27t exist"

/-- main.py lines 875-924, the shared post-action verification: when no
confirmation was observed, look for removal markers in the page, then
for a diverged URL whose page lacks a 404 marker; then, whenever a
delete action was initiated or confirmed, re-navigate to the post URL
and decide from what renders there; reaching the end with an initiated
action yields (true, 1). -/
def verifyRegion (url : String) (v : VerifyEnv) (deleted confirmed : Bool) :
    Bool × Nat :=
  if !confirmed && hasRemovedText (strLower v.content1) then (true, 1)
  else if !confirmed && !strContains v.url1 url &&
      !strContains (strLower v.content2) "404" then (true, 1)
  else if confirmed || deleted then
    if v.gotoFails then (true, 1)
    else if hasNotFoundText (strLower v.content3) then (true, 1)
    else if strContains v.url3 url then (false, 0)
    else (true, 1)
  else (false, 0)

/-- Result of delete_one, instrumented with the list of controls
actually clicked. -/
structure DelRes where
  outcome : Bool × Nat
  clicks : List String
deriving DecidableEq

/-- main.py lines 554-924, delete_one.  Image hrefs use the Delete image
button; in dry-run the button is really clicked to open the modal and
the Cancel control is really clicked to dismiss it, in live mode the
Yes, Delete It confirmation is clicked.  Album hrefs delegate to
delete_post_container and report (ok, 0).  Remaining hrefs walk the
overflow menu, the Delete image entry and the Delete from account
choice, then the generic confirmation chain, and finish in the shared
verification stage. -/
def delete_one (env : PageEnv) (href : String) (dry_run : Bool) : DelRes :=
  if is_image href then
    if !env.deleteImageBtnVisible then ⟨(false, 0), []⟩
    else if dry_run then
      ⟨(true, 1), "Delete image" :: (if env.cancelVisible then ["Cancel"] else [])⟩
    else if env.yesDeleteItVisible then
      ⟨(true, 1), ["Delete image", "Yes, Delete It"]⟩
    else ⟨(false, 0), ["Delete image"]⟩
  else if is_album href then
    let r := delete_post_container env dry_run
    if r.initiated then ⟨(true, 0), r.clicks⟩ else ⟨(false, 0), r.clicks⟩
  else
    if !env.threeDotsVisible then ⟨(false, 0), []⟩
    else
      let c1 : List String := if dry_run then [] else ["three dots menu"]
      if !env.deleteImageMenuVisible then ⟨(false, 0), c1⟩
      else
        let c2 := c1 ++ (if dry_run then [] else ["Delete image"])
        let deleted := env.deleteFromAccountVisible
        if !deleted then ⟨(false, 0), c2⟩
        else
          let c3 := c2 ++ (if dry_run then [] else ["Delete from account"])
          let confirmed := env.confirmVisible
          let c4 := c3 ++ (if confirmed && !dry_run then ["Confirm"] else [])
          ⟨verifyRegion ("https://imgur.com" ++ href) env.verify deleted confirmed, c4⟩

/-- A page where every control is present and the post disappears after
deletion; used in the concrete checks below. -/
def envAllVisible : PageEnv :=
  { deleteImageBtnVisible := true
    cancelVisible := true
    yesDeleteItVisible := true
    deletePostVisible := true
    deletePostOnlyConfirmVisible := true
    deletePostConfirmVisible := true
    threeDotsVisible := true
    deleteImageMenuVisible := true
    deleteFromAccountVisible := true
    confirmVisible := true
    verify :=
      { content1 := "", url1 := "https://imgur.com/x", content2 := ""
        gotoFails := false, content3 := "404 Not Found", url3 := "https://imgur.com/x" } }

/-- What the loop observes from the grid page in one outer iteration:
the hrefs find_post_links_sorted produced, and the scroll height read
when the iteration consults document.body.scrollHeight. -/
structure GridObs where
  links : List String
  height : ℤ
deriving DecidableEq

/-- The RunState of the orchestration loop, instrumented with the count
of scroll-to-bottom actions and the order in which links were handed to
delete_one. -/
structure LoopState where
  processed : Nat
  seen : List ℤ
  bottomScrolls : Nat
  order : List String
deriving DecidableEq

/-- main.py lines 988-1000: the amount added to processed for one link
given the DeletionOutcome. -/
def linkInc (r : Bool × Nat) : Nat :=
  if r.1 then (if r.2 = 0 then 1 else r.2) else 1

/-- main.py lines 985-1010, the for loop over one batch of links: run
delete_one on each link of the snapshot in order, add linkInc to
processed, and break as soon as processed reaches the cap. -/
def runLinks (delete : String → Bool × Nat) (cap : Nat) :
    List String → LoopState → LoopState
  | [], s => s
  | h :: rest, s =>
    let s1 : LoopState :=
      { s with processed := s.processed + linkInc (delete h), order := s.order ++ [h] }
    if cap ≤ s1.processed then s1 else runLinks delete cap rest s1

/-- The ways the while loop of main ends: the while condition fails
(line 972), the empty-batch fixed point fires (line 978), or the
post-batch fixed point fires (line 1015). -/
inductive StopReason where
  | capReached
  | noMorePosts
  | noFurtherContent
deriving DecidableEq

/-- One outer iteration either continues with a new state or stops. -/
inductive StepRes where
  | next (s : LoopState)
  | halt (r : StopReason) (s : LoopState)
deriving DecidableEq

/-- main.py lines 972-1019, one iteration of the while loop: check the
while condition, extract links; with no links compare the scroll height
against the seen set and either stop or scroll to the bottom and retry;
with links process the batch, then compare the height read after the
batch against the seen set and either stop or record it and scroll. -/
def loopStep (delete : String → Bool × Nat) (cap : Nat) (obs : GridObs)
    (s : LoopState) : StepRes :=
  if cap ≤ s.processed then .halt .capReached s
  else if obs.links = [] then
    if obs.height ∈ s.seen then .halt .noMorePosts s
    else .next { s with seen := obs.height :: s.seen,
                        bottomScrolls := s.bottomScrolls + 1 }
  else
    let s1 := runLinks delete cap obs.links s
    if obs.height ∈ s1.seen then .halt .noFurtherContent s1
    else .next { s1 with seen := obs.height :: s1.seen,
                         bottomScrolls := s1.bottomScrolls + 1 }

/-- The while loop of main, iterated with fuel; obs t is what the t-th
iteration observes on the grid page.  Returns the stop reason (none when
the fuel ran out, a model artifact that corresponds to no behavior of
the script) and the final state. -/
def runLoop (delete : String → Bool × Nat) (cap : Nat) (obs : Nat → GridObs) :
    Nat → Nat → LoopState → Option StopReason × LoopState
  | 0, _, s => (none, s)
  | fuel + 1, t, s =>
    match loopStep delete cap (obs t) s with
    | .halt r s1 => (some r, s1)
    | .next s1 => runLoop delete cap obs fuel (t + 1) s1

/-- The initial RunState of main (lines 965-966). -/
def initLoopState : LoopState := ⟨0, [], 0, []⟩

/-- The classifier as the amended claim C1 describes it: the /image/
substring test runs first and wins even on an album href, the album
test runs second, and the 7-character heuristic applies only to
non-album hrefs. -/
def postKindAmended (href : String) : PostKind :=
  if strContains href "/image/" then .Image
  else if is_album href then .Album
  else if strStarts href "/" && (lastSegment href.toList).length == 7 then .Image
  else .Other

/-- The cancel and dismiss controls the dry-run image flow looks for
(lines 619-626). -/
def cancelControls : List String := ["Cancel", "Close"]

/-- The irreversible confirmation controls of the live flows: the image
confirmation, the menu-flow account deletion, the album modal choices
and the generic confirmation chain. -/
def irreversibleControls : List String :=
  ["Yes, Delete It", "Delete from account", "Delete post", "Delete Post",
   "Delete Post Only", "Confirm"]

/-- An album page whose Delete post control is present but whose modal
confirmation buttons never appear. -/
def envNoConfirm : PageEnv :=
  { envAllVisible with
      deletePostOnlyConfirmVisible := false
      deletePostConfirmVisible := false }

/-- The positive signals of the amended claim C8: a removal marker in
the rendered page; a diverged URL whose page lacks a 404 marker; or,
after re-navigating, a navigation timeout, a not-found marker, or a
failure to land back on the post URL. -/
def positiveSignal (url : String) (v : VerifyEnv) : Bool :=
  hasRemovedText (strLower v.content1) ||
    (!strContains v.url1 url && !strContains (strLower v.content2) "404") ||
    v.gotoFails || hasNotFoundText (strLower v.content3) ||
    !strContains v.url3 url

/-- The pre-action post URL of the C8 counterexample. -/
def urlC8 : String := "https://imgur.com/x"

/-- Verification observations where the current URL has diverged from
the post URL but the diverged page shows a 404 marker, and re-navigating
lands back on the intact post. -/
def verifyEnvC8 : VerifyEnv :=
  { content1 := "", url1 := "https://elsewhere.example/home", content2 := "404"
    gotoFails := false, content3 := "", url3 := "https://imgur.com/x" }

/-- Grid observations for the C6 counterexample: every visit shows the
same single link and the same scroll height. -/
def obsCE6 : Nat → GridObs := fun _ => ⟨["/IMAGE01"], 100⟩

/-- Driver outcomes for the C6 counterexample: every link deletes as one
image. -/
def deleteCE6 : String → Bool × Nat := fun _ => (true, 1)

/-- The anchors of the end-to-end scenario of C9: /a/1 at row 0 column
0, /IMAGE01 at row 0 column 150, /gallery/2 at row 150 column 0
(positions written (y, x) as in the sort key). -/
def anchorsC9 : List Anchor :=
  [⟨"/gallery/2", true, some (0, 150)⟩,
   ⟨"/a/1", true, some (0, 0)⟩,
   ⟨"/IMAGE01", true, some (150, 0)⟩]

/-- The extracted hrefs of the C9 scenario. -/
def linksC9 : List String := (find_post_links_sorted anchorsC9).map Item.href

/-- The per-link outcomes of the C9 scenario: delete_one in dry-run on
a fully visible page. -/
def deleteC9 : String → Bool × Nat := fun h => (delete_one envAllVisible h true).outcome

/-- Grid observations of the C9 scenario. -/
def obsC9 : Nat → GridObs := fun _ => ⟨linksC9, 100⟩

/-- The full C9 run: cap 3, ample fuel, fresh state. -/
def runC9 : Option StopReason × LoopState := runLoop deleteC9 3 obsC9 10 0 initLoopState

/-- Per-href page environments for the C10 witness. -/
def envOfW : String → PageEnv := fun _ => envAllVisible

/-- Grid observations for the C10 witness: two image links per visit. -/
def obsW : Nat → GridObs := fun _ => ⟨["/IMAGE01", "/IMAGE02"], 7⟩

/-- C1, counterexample: the href /a/image/x starts with the album
marker /a/ yet the code classifies it as Image, because delete_one
tests is_image first and the /image/ substring branch of is_image is
not guarded by the album test; the claim says any href starting with an
album marker is classified Album. -/
theorem postKind_album_precedence_cex :
    is_album "/a/image/x" = true ∧ postKind "/a/image/x" = PostKind.Image ∧
      postKind "/a/image/x" ≠ PostKind.Album := by decide

/-- C1, amended: the classifier is pure in the href and its checks run
in this order: an href containing /image/ is Image even when it starts
with /a/ or /gallery/; otherwise an href starting with /a/ or /gallery/
is Album; otherwise an href whose final path segment has exactly 7
characters is Image; everything else is Other. -/
theorem postKind_eq_postKindAmended (href : String) :
    postKind href = postKindAmended href := by
  unfold postKind postKindAmended is_image
  cases h1 : strContains href "/image/" <;>
    cases h2 : is_album href <;>
      cases h3 : strStarts href "/" <;>
        cases h4 : (lastSegment href.toList).length == 7 <;>
          simp [h1, h2, h3, h4]

/-- C2: every href dispatched to the album driver yields an outcome
whose imagesDeleted component is 0; the success flag is exactly the
Boolean delete_post_container returned, so success gives (true, 0) and
failure gives (false, 0), never a nonzero image count. -/
theorem album_driver_outcome_zero (env : PageEnv) (href : String) (dry : Bool)
    (h : postKind href = PostKind.Album) :
    (delete_one env href dry).outcome =
      ((delete_post_container env dry).initiated, 0) := by
  have h1 : is_image href = false := by
    cases hi : is_image href
    · rfl
    · simp [postKind, hi] at h
  have h2 : is_album href = true := by
    cases ha : is_album href
    · simp [postKind, h1, ha] at h
    · rfl
  unfold delete_one
  rw [h1, h2]
  simp only [Bool.false_eq_true, if_false, if_true]
  cases hi : (delete_post_container env dry).initiated <;> simp [hi]

/-- C2, witness: the album href /a/1 on a fully visible page. -/
theorem album_driver_outcome_zero_check :
    postKind "/a/1" = PostKind.Album ∧
      (delete_one envAllVisible "/a/1" true).outcome =
        ((delete_post_container envAllVisible true).initiated, 0) :=
  ⟨by decide, album_driver_outcome_zero envAllVisible "/a/1" true (by decide)⟩

/-- C7, counterexample: with the Delete post control present but no
modal confirmation button ever visible, delete_post_container still
returns true (line 550 returns confirmation_clicked or
delete_post_clicked), so the driver reports success although the
secondary post-only confirmation was never located or activated. -/
theorem container_success_without_confirm_cex :
    (delete_post_container envNoConfirm false).initiated = true ∧
      (delete_post_container envNoConfirm false).confirmClicked = false ∧
      (delete_post_container envNoConfirm false).clicks = ["Delete post"] := by
  decide

/-- C7, amended: the album driver reports success exactly when the
Delete post container control was located and activated; the secondary
modal confirmation is then attempted, preferring the Delete Post Only
choice, but locating it is not required for the reported success. -/
theorem container_success_iff_post_clicked (env : PageEnv) (dry : Bool) :
    (delete_post_container env dry).initiated =
        (delete_post_container env dry).postClicked ∧
      (delete_post_container env dry).confirmClicked =
        ((delete_post_container env dry).postClicked &&
          (env.deletePostOnlyConfirmVisible || env.deletePostConfirmVisible)) := by
  unfold delete_post_container
  cases h : env.deletePostVisible <;> simp [h]

/-- De-duplication only removes elements: its output is a sublist of
its input. -/
theorem dedupeByHref_sublist (l : List Item) :
    ∀ seen, List.Sublist (dedupeByHref l seen) l := by
  induction l with
  | nil => intro seen; simp [dedupeByHref]
  | cons i rest ih =>
    intro seen
    by_cases h : i.href ∈ seen
    · simp only [dedupeByHref, if_pos h]
      exact (ih seen).cons i
    · simp only [dedupeByHref, if_neg h]
      exact (ih (i.href :: seen)).cons₂ i

/-- No element emitted by de-duplication carries an href from the seen
set. -/
theorem dedupeByHref_not_seen (l : List Item) :
    ∀ seen, ∀ i ∈ dedupeByHref l seen, i.href ∉ seen := by
  induction l with
  | nil => intro seen i hi; simp [dedupeByHref] at hi
  | cons j rest ih =>
    intro seen i hi
    by_cases h : j.href ∈ seen
    · simp only [dedupeByHref, if_pos h] at hi
      exact ih seen i hi
    · simp only [dedupeByHref, if_neg h, List.mem_cons] at hi
      rcases hi with hi | hi
      · subst hi; exact h
      · intro hs
        exact ih (j.href :: seen) i hi (List.mem_cons_of_mem _ hs)

/-- The hrefs produced by de-duplication are pairwise distinct. -/
theorem dedupeByHref_nodup (l : List Item) :
    ∀ seen, ((dedupeByHref l seen).map Item.href).Nodup := by
  induction l with
  | nil => intro seen; simp [dedupeByHref]
  | cons j rest ih =>
    intro seen
    by_cases h : j.href ∈ seen
    · simpa only [dedupeByHref, if_pos h] using ih seen
    · simp only [dedupeByHref, if_neg h, List.map_cons, List.nodup_cons]
      refine ⟨?_, ih (j.href :: seen)⟩
      intro hmem
      rcases List.mem_map.mp hmem with ⟨i, hi, hh⟩
      exact dedupeByHref_not_seen rest (j.href :: seen) i hi
        (hh ▸ List.mem_cons_self _ _)

/-- Each emitted item is the first item of the input list carrying its
href: de-duplication keeps first occurrences. -/
theorem dedupeByHref_keeps_first (l : List Item) :
    ∀ seen, ∀ i ∈ dedupeByHref l seen,
      l.find? (fun j => j.href == i.href) = some i := by
  induction l with
  | nil => intro seen i hi; simp [dedupeByHref] at hi
  | cons j rest ih =>
    intro seen i hi
    by_cases h : j.href ∈ seen
    · simp only [dedupeByHref, if_pos h] at hi
      have hne : (j.href == i.href) = false := by
        simp only [beq_eq_false_iff_ne, ne_eq]
        intro he
        exact dedupeByHref_not_seen rest seen i hi (he ▸ h)
      simp only [List.find?_cons, hne]
      exact ih seen i hi
    · simp only [dedupeByHref, if_neg h, List.mem_cons] at hi
      rcases hi with hi | hi
      · subst hi
        rw [List.find?_cons_of_pos _ (by simp)]
      · have hni : i.href ∉ j.href :: seen :=
          dedupeByHref_not_seen rest (j.href :: seen) i hi
        have hne : (j.href == i.href) = false := by
          simp only [beq_eq_false_iff_ne, ne_eq]
          intro he
          exact hni (he ▸ List.mem_cons_self _ _)
        simp only [List.find?_cons, hne]
        exact ih (j.href :: seen) i hi

/-- Any item the anchor filter emits passed the href acceptance test. -/
theorem anchorToItem_accepted {a : Anchor} {i : Item}
    (h : anchorToItem a = some i) : hrefAccepted i.href = true := by
  unfold anchorToItem at h
  split at h
  · exact absurd h (by simp)
  · split at h
    · exact absurd h (by simp)
    · rename_i hne
      split at h
      · exact absurd h (by simp)
      · cases h
        cases hacc : hrefAccepted (normalizeHref a.href)
        · exact absurd hacc hne
        · rfl

/-- C5: for any list of DOM anchors, the extractor output is sorted
non-decreasing by the key (round(y), round(x)); no two output elements
share a normalized href, and each kept element is the first element of
the sorted sequence carrying its href; and no output href starts with a
blocklisted path. -/
theorem extractor_sorted_nodup_filtered (anchors : List Anchor) :
    List.Sorted itemLe (find_post_links_sorted anchors) ∧
      ((find_post_links_sorted anchors).map Item.href).Nodup ∧
      (find_post_links_sorted anchors).all
        (fun i => !hasBadStart i.href) = true ∧
      (∀ i ∈ find_post_links_sorted anchors,
        (List.insertionSort itemLe (anchors.filterMap anchorToItem)).find?
          (fun j => j.href == i.href) = some i) := by
  refine ⟨?_, dedupeByHref_nodup _ _, ?_, dedupeByHref_keeps_first _ _⟩
  · exact (List.sorted_insertionSort itemLe _).sublist (dedupeByHref_sublist _ _)
  · refine List.all_eq_true.mpr ?_
    intro i hi
    have hs : i ∈ List.insertionSort itemLe (anchors.filterMap anchorToItem) :=
      (dedupeByHref_sublist _ _).subset hi
    have hm : i ∈ anchors.filterMap anchorToItem :=
      (List.mem_insertionSort itemLe).mp hs
    rcases List.mem_filterMap.mp hm with ⟨a, _, ha⟩
    have hacc := anchorToItem_accepted ha
    unfold hrefAccepted at hacc
    simp only [Bool.and_eq_true] at hacc
    rcases hacc with ⟨⟨_, h3⟩, _⟩
    simpa using h3

/-- C5, witness: a one-anchor grid, whose single item is kept and is
the first sorted element carrying its href. -/
theorem extractor_sorted_nodup_filtered_check :
    Item.mk "/a/1" 0 0 ∈ find_post_links_sorted [⟨"/a/1", true, some (0, 0)⟩] ∧
      (List.insertionSort itemLe
          ([⟨"/a/1", true, some (0, 0)⟩].filterMap anchorToItem)).find?
        (fun j => j.href == (Item.mk "/a/1" 0 0).href) = some (Item.mk "/a/1" 0 0) :=
  ⟨by decide,
    (extractor_sorted_nodup_filtered [⟨"/a/1", true, some (0, 0)⟩]).2.2.2
      (Item.mk "/a/1" 0 0) (by decide)⟩

/-- C4, counterexample: in dry-run mode the image driver really clicks
the Delete image button to open the modal (line 594), and Delete image
is not a cancel or dismiss control, so it is false that only
cancel/dismiss controls are actually clicked. -/
theorem dry_run_clicks_not_only_cancel_cex :
    "Delete image" ∈ (delete_one envAllVisible "/IMAGE01" true).clicks ∧
      "Delete image" ∉ cancelControls := by decide

/-- C4, amended: with the dry-run flag set, no driver ever clicks an
irreversible confirmation control; the only controls actually clicked
are the image driver modal opener Delete image and cancel/dismiss
controls.  The image driver still reports (true, 1) once its delete
button is found, and the album driver still reports (true, 0) once the
Delete post control is found. -/
theorem dry_run_clicks_safe (env : PageEnv) (href : String) :
    (delete_one env href true).clicks.all
        (fun c => !irreversibleControls.contains c &&
          (c == "Delete image" || cancelControls.contains c)) = true ∧
      (is_image href = true → env.deleteImageBtnVisible = true →
        (delete_one env href true).outcome = (true, 1)) ∧
      (postKind href = PostKind.Album → env.deletePostVisible = true →
        (delete_one env href true).outcome = (true, 0)) := by
  refine ⟨?_, ?_, ?_⟩
  · unfold delete_one delete_post_container
    cases h1 : is_image href <;> cases h2 : is_album href <;>
      simp [h1, h2] <;>
        cases h3 : env.deleteImageBtnVisible <;>
          cases h4 : env.cancelVisible <;>
            cases h5 : env.deletePostVisible <;>
              cases h6 : env.threeDotsVisible <;>
                cases h7 : env.deleteImageMenuVisible <;>
                  cases h8 : env.deleteFromAccountVisible <;>
                    simp [h3, h4, h5, h6, h7, h8, cancelControls, irreversibleControls]
  · intro hi hv
    simp [delete_one, hi, hv]
  · intro hk hv
    have h1 : is_image href = false := by
      cases hi : is_image href
      · rfl
      · simp [postKind, hi] at hk
    have h2 : is_album href = true := by
      cases ha : is_album href
      · simp [postKind, h1, ha] at hk
      · rfl
    simp [delete_one, h1, h2, delete_post_container, hv]

/-- C4, witness: on a fully visible page in dry-run, the image href
gives outcome (true, 1). -/
theorem dry_run_clicks_safe_check :
    is_image "/IMAGE01" = true ∧ envAllVisible.deleteImageBtnVisible = true ∧
      (delete_one envAllVisible "/IMAGE01" true).outcome = (true, 1) :=
  ⟨by decide, by decide,
    (dry_run_clicks_safe envAllVisible "/IMAGE01").2.1 (by decide) (by decide)⟩

/-- C8, counterexample: the current URL has diverged from the post URL
(a positive signal per the claim), yet because the diverged page shows
a 404 marker and re-navigation lands back on the intact post, the stage
returns (false, 0) instead of the claimed (true, 1). -/
theorem verify_divergence_not_positive_cex :
    strContains verifyEnvC8.url1 urlC8 = false ∧
      verifyRegion urlC8 verifyEnvC8 true false = (false, 0) := by decide

/-- C8, amended: for a delete action that was initiated but not
confirmed, the stage returns (true, 1) exactly when a positive signal
is present, where the signals are: a removal or not-found marker in the
rendered page; a diverged current URL whose page lacks a 404 marker; or,
on re-navigation, a timeout, a not-found marker, or a failure to land
back on the post URL.  With no positive signal it returns (false, 0). -/
theorem verify_outcome_characterization (url : String) (v : VerifyEnv) :
    verifyRegion url v true false =
      (if positiveSignal url v = true then (true, 1) else (false, 0)) := by
  unfold verifyRegion positiveSignal
  cases h1 : hasRemovedText (strLower v.content1) <;>
    cases h2 : strContains v.url1 url <;>
      cases h3 : strContains (strLower v.content2) "404" <;>
        cases h4 : v.gotoFails <;>
          cases h5 : hasNotFoundText (strLower v.content3) <;>
            cases h6 : strContains v.url3 url <;>
              simp [h1, h2, h3, h4, h5, h6]

/-- Processing a batch never touches the seen-heights set. -/
theorem runLinks_seen (delete : String → Bool × Nat) (cap : Nat) :
    ∀ (ls : List String) (s : LoopState), (runLinks delete cap ls s).seen = s.seen := by
  intro ls
  induction ls with
  | nil => intro s; rfl
  | cons h rest ih =>
    intro s
    simp only [runLinks]
    split
    · rfl
    · exact ih _

/-- Processing a batch never decreases the processed counter. -/
theorem runLinks_processed_le (delete : String → Bool × Nat) (cap : Nat) :
    ∀ (ls : List String) (s : LoopState),
      s.processed ≤ (runLinks delete cap ls s).processed := by
  intro ls
  induction ls with
  | nil => intro s; exact Nat.le_refl _
  | cons h rest ih =>
    intro s
    simp only [runLinks]
    split
    · exact Nat.le_add_right _ _
    · exact Nat.le_trans (Nat.le_add_right _ _)
        (ih { s with processed := s.processed + linkInc (delete h),
                     order := s.order ++ [h] })

/-- When every link contributes exactly one unit, a batch started below
the cap ends at or below the cap. -/
theorem runLinks_le_cap (delete : String → Bool × Nat) (cap : Nat)
    (hone : ∀ h, linkInc (delete h) = 1) :
    ∀ (ls : List String) (s : LoopState), s.processed < cap →
      (runLinks delete cap ls s).processed ≤ cap := by
  intro ls
  induction ls with
  | nil => intro s hs; exact Nat.le_of_lt hs
  | cons h rest ih =>
    intro s hs
    simp only [runLinks, hone h]
    split
    · exact hs
    · rename_i hlt
      exact ih _ (Nat.lt_of_not_le (by simpa using hlt))

/-- A halting iteration never decreases the processed counter. -/
theorem loopStep_halt_le (delete : String → Bool × Nat) (cap : Nat) (obs : GridObs)
    (s : LoopState) (r : StopReason) (s1 : LoopState)
    (h : loopStep delete cap obs s = StepRes.halt r s1) :
    s.processed ≤ s1.processed := by
  simp only [loopStep] at h
  split at h
  · injection h with h1 h2; subst h2; exact Nat.le_refl _
  · split at h
    · split at h
      · injection h with h1 h2; subst h2; exact Nat.le_refl _
      · simp at h
    · split at h
      · injection h with h1 h2; subst h2; exact runLinks_processed_le _ _ _ _
      · simp at h

/-- A continuing iteration never decreases the processed counter. -/
theorem loopStep_next_le (delete : String → Bool × Nat) (cap : Nat) (obs : GridObs)
    (s : LoopState) (s1 : LoopState)
    (h : loopStep delete cap obs s = StepRes.next s1) :
    s.processed ≤ s1.processed := by
  simp only [loopStep] at h
  split at h
  · simp at h
  · split at h
    · split at h
      · simp at h
      · injection h with h2; subst h2; exact Nat.le_refl _
    · split at h
      · simp at h
      · injection h with h2; subst h2; exact runLinks_processed_le _ _ _ _

/-- The whole loop never decreases the processed counter. -/
theorem runLoop_processed_le (delete : String → Bool × Nat) (cap : Nat)
    (obs : Nat → GridObs) :
    ∀ (fuel t : Nat) (s : LoopState),
      s.processed ≤ (runLoop delete cap obs fuel t s).2.processed := by
  intro fuel
  induction fuel with
  | zero => intro t s; exact Nat.le_refl _
  | succ n ih =>
    intro t s
    simp only [runLoop]
    cases hstep : loopStep delete cap (obs t) s with
    | halt r s1 => exact loopStep_halt_le delete cap (obs t) s r s1 hstep
    | next s1 =>
      exact Nat.le_trans (loopStep_next_le delete cap (obs t) s s1 hstep) (ih (t + 1) s1)

/-- With unit contributions, a halting iteration started at or below the
cap ends at or below the cap, and ends exactly at the cap when it halts
for the cap reason. -/
theorem loopStep_halt_cap (delete : String → Bool × Nat) (cap : Nat) (obs : GridObs)
    (s : LoopState) (r : StopReason) (s1 : LoopState)
    (hone : ∀ h, linkInc (delete h) = 1) (hs : s.processed ≤ cap)
    (h : loopStep delete cap obs s = StepRes.halt r s1) :
    s1.processed ≤ cap ∧ (r = StopReason.capReached → s1.processed = cap) := by
  simp only [loopStep] at h
  split at h
  · rename_i hc
    injection h with h1 h2; subst h2
    exact ⟨hs, fun _ => Nat.le_antisymm hs hc⟩
  · rename_i hnc
    have hlt : s.processed < cap := Nat.lt_of_not_le hnc
    split at h
    · split at h
      · injection h with h1 h2; subst h2; subst h1
        exact ⟨hs, fun hr => absurd hr (by decide)⟩
      · simp at h
    · split at h
      · injection h with h1 h2; subst h2; subst h1
        exact ⟨runLinks_le_cap delete cap hone _ _ hlt, fun hr => absurd hr (by decide)⟩
      · simp at h

/-- With unit contributions, a continuing iteration started at or below
the cap stays at or below the cap. -/
theorem loopStep_next_cap (delete : String → Bool × Nat) (cap : Nat) (obs : GridObs)
    (s : LoopState) (s1 : LoopState)
    (hone : ∀ h, linkInc (delete h) = 1) (hs : s.processed ≤ cap)
    (h : loopStep delete cap obs s = StepRes.next s1) :
    s1.processed ≤ cap := by
  simp only [loopStep] at h
  split at h
  · simp at h
  · rename_i hnc
    have hlt : s.processed < cap := Nat.lt_of_not_le hnc
    split at h
    · split at h
      · simp at h
      · injection h with h2; subst h2; exact hs
    · split at h
      · simp at h
      · injection h with h2; subst h2
        exact runLinks_le_cap delete cap hone _ _ hlt

/-- With unit contributions, the loop keeps the processed counter at or
below the cap. -/
theorem runLoop_le_cap (delete : String → Bool × Nat) (cap : Nat)
    (obs : Nat → GridObs) (hone : ∀ h, linkInc (delete h) = 1) :
    ∀ (fuel t : Nat) (s : LoopState), s.processed ≤ cap →
      (runLoop delete cap obs fuel t s).2.processed ≤ cap := by
  intro fuel
  induction fuel with
  | zero => intro t s hs; exact hs
  | succ n ih =>
    intro t s hs
    simp only [runLoop]
    cases hstep : loopStep delete cap (obs t) s with
    | halt r s1 =>
      exact (loopStep_halt_cap delete cap (obs t) s r s1 hone hs hstep).1
    | next s1 =>
      exact ih (t + 1) s1 (loopStep_next_cap delete cap (obs t) s s1 hone hs hstep)

/-- With unit contributions, a run that stops because the while
condition failed ends with processed equal to the cap. -/
theorem runLoop_capReached_exact (delete : String → Bool × Nat) (cap : Nat)
    (obs : Nat → GridObs) (hone : ∀ h, linkInc (delete h) = 1) :
    ∀ (fuel t : Nat) (s : LoopState), s.processed ≤ cap →
      (runLoop delete cap obs fuel t s).1 = some StopReason.capReached →
      (runLoop delete cap obs fuel t s).2.processed = cap := by
  intro fuel
  induction fuel with
  | zero => intro t s _ hr; exact absurd hr (by simp [runLoop])
  | succ n ih =>
    intro t s hs hr
    simp only [runLoop] at hr ⊢
    cases hstep : loopStep delete cap (obs t) s with
    | halt r s1 =>
      rw [hstep] at hr
      exact (loopStep_halt_cap delete cap (obs t) s r s1 hone hs hstep).2
        (Option.some.inj hr)
    | next s1 =>
      rw [hstep] at hr
      exact ih (t + 1) s1 (loopStep_next_cap delete cap (obs t) s s1 hone hs hstep) hr

/-- The verification stage only ever reports zero or one image. -/
theorem verifyRegion_snd_le_one (url : String) (v : VerifyEnv)
    (deleted confirmed : Bool) :
    (verifyRegion url v deleted confirmed).2 ≤ 1 := by
  unfold verifyRegion
  repeat' split
  all_goals simp

/-- Every outcome of delete_one reports zero or one image. -/
theorem delete_one_snd_le_one (env : PageEnv) (href : String) (dry : Bool) :
    ((delete_one env href dry).outcome).2 ≤ 1 := by
  simp only [delete_one]
  repeat' split
  all_goals first
    | exact Nat.zero_le _
    | exact Nat.le_refl _
    | exact verifyRegion_snd_le_one _ _ _ _

/-- An outcome reporting at most one image always contributes exactly
one unit of progress. -/
theorem linkInc_eq_one {r : Bool × Nat} (h : r.2 ≤ 1) : linkInc r = 1 := by
  rcases r with ⟨ok, n⟩
  rcases Nat.le_one_iff_eq_zero_or_eq_one.mp h with h0 | h1
  · subst h0; cases ok <;> simp [linkInc]
  · subst h1; cases ok <;> simp [linkInc]

/-- The increment of the script, written as the claim phrases it:
imagesDeleted when the outcome succeeded with a nonzero count, one unit
otherwise. -/
theorem linkInc_eq_claim (r : Bool × Nat) :
    linkInc r = if r.1 = true ∧ r.2 ≠ 0 then r.2 else 1 := by
  rcases r with ⟨ok, n⟩
  cases ok <;> rcases n with _ | m <;> simp [linkInc]

/-- C3: the processed counter is non-decreasing across the run; one
processed link adds imagesDeleted when the outcome succeeded with a
nonzero count and one unit otherwise (so a successful zero-image album
ungroup and any failed attempt each add one); and once processed has
reached the cap the loop stops at once with the cap reason, for any
cap of at least one. -/
theorem loop_progress_monotone_cap (delete : String → Bool × Nat) (cap : Nat)
    (obs : Nat → GridObs) (fuel t : Nat) (s : LoopState) (hcap : 1 ≤ cap) :
    s.processed ≤ (runLoop delete cap obs fuel t s).2.processed ∧
      (∀ (h : String) (s0 : LoopState),
        (runLinks delete cap [h] s0).processed =
          s0.processed +
            (if (delete h).1 = true ∧ (delete h).2 ≠ 0 then (delete h).2 else 1)) ∧
      (cap ≤ s.processed →
        runLoop delete cap obs (fuel + 1) t s = (some StopReason.capReached, s)) := by
  refine ⟨runLoop_processed_le delete cap obs fuel t s, ?_, ?_⟩
  · intro h s0
    simp only [runLinks, linkInc_eq_claim]
    split <;> split <;> rfl
  · intro hc
    simp only [runLoop, loopStep, if_pos hc]

/-- C3, witness: a run at cap one from a fresh state. -/
theorem loop_progress_monotone_cap_check :
    1 ≤ 1 ∧
      initLoopState.processed ≤
        (runLoop (fun _ => (true, 1)) 1 (fun _ => ⟨[], 0⟩) 2 0 initLoopState).2.processed :=
  ⟨by decide,
    (loop_progress_monotone_cap (fun _ => (true, 1)) 1 (fun _ => ⟨[], 0⟩) 2 0
      initLoopState (by decide)).1⟩

/-- C6, counterexample: with a cap of 5 and a grid that always shows one
link at a constant scroll height, the run stops after two links with
processed 2 below the cap and a nonempty extraction, via the post-batch
fixed-point check of line 1015 — a third termination path the claim
does not admit. -/
theorem loop_third_exit_cex :
    (runLoop deleteCE6 5 obsCE6 10 0 initLoopState).1 =
        some StopReason.noFurtherContent ∧
      (runLoop deleteCE6 5 obsCE6 10 0 initLoopState).2.processed = 2 ∧
      ¬(5 ≤ (runLoop deleteCE6 5 obsCE6 10 0 initLoopState).2.processed) ∧
      (obsCE6 1).links ≠ [] := by decide

/-- C6, amended: an iteration ends the run exactly under one of three
conditions — processed has reached the cap; extraction is empty and the
height was already observed; or, after processing a nonempty batch, the
height read at the end of the pass was already observed while processed
is still below the cap.  When extraction is empty and the height is
new, the iteration always scrolls and continues. -/
theorem loopStep_exit_classification (delete : String → Bool × Nat) (cap : Nat)
    (obs : GridObs) (s : LoopState) :
    (∀ r s1, loopStep delete cap obs s = StepRes.halt r s1 →
      (r = StopReason.capReached ∧ cap ≤ s.processed ∧ s1 = s) ∨
      (r = StopReason.noMorePosts ∧ s.processed < cap ∧ obs.links = [] ∧
        obs.height ∈ s.seen ∧ s1 = s) ∨
      (r = StopReason.noFurtherContent ∧ s.processed < cap ∧ obs.links ≠ [] ∧
        obs.height ∈ s.seen ∧ s1 = runLinks delete cap obs.links s)) ∧
      (cap ≤ s.processed →
        loopStep delete cap obs s = StepRes.halt StopReason.capReached s) ∧
      (s.processed < cap → obs.links = [] → obs.height ∉ s.seen →
        loopStep delete cap obs s =
          StepRes.next { s with seen := obs.height :: s.seen,
                                bottomScrolls := s.bottomScrolls + 1 }) := by
  refine ⟨?_, ?_, ?_⟩
  · intro r s1 h
    simp only [loopStep] at h
    split at h
    · rename_i hc
      injection h with h1 h2
      exact Or.inl ⟨h1.symm, hc, h2.symm⟩
    · rename_i hnc
      have hlt : s.processed < cap := Nat.lt_of_not_le hnc
      split at h
      · rename_i hempty
        split at h
        · rename_i hmem
          injection h with h1 h2
          exact Or.inr (Or.inl ⟨h1.symm, hlt, hempty, hmem, h2.symm⟩)
        · simp at h
      · rename_i hne
        split at h
        · rename_i hmem
          injection h with h1 h2
          rw [runLinks_seen] at hmem
          exact Or.inr (Or.inr ⟨h1.symm, hlt, hne, hmem, h2.symm⟩)
        · simp at h
  · intro hc
    simp only [loopStep, if_pos hc]
  · intro hlt he hnm
    simp only [loopStep, if_neg (Nat.not_le_of_lt hlt), if_pos he, if_neg hnm]

/-- C6, witness: an iteration whose processed counter already reached
the cap halts with the cap reason. -/
theorem loopStep_exit_classification_check :
    loopStep deleteCE6 5 (obsCE6 0) ⟨7, [], 0, []⟩ =
      StepRes.halt StopReason.capReached ⟨7, [], 0, []⟩ :=
  (loopStep_exit_classification deleteCE6 5 (obsCE6 0) ⟨7, [], 0, []⟩).2.1 (by decide)

/-- C9, counterexample: in the end-to-end scenario the loop does scroll
once more after the cap is reached — the post-batch height check of
lines 1013-1018 records the height and scrolls to the bottom before the
while condition stops the run — so the run does not terminate without
further scrolling. -/
theorem scenario_scroll_after_cap_cex :
    runC9.2.bottomScrolls = 1 ∧ runC9.2.bottomScrolls ≠ 0 := by decide

/-- C9, amended: with the grid anchors /a/1, /IMAGE01, /gallery/2 at
(y, x) positions (0,0), (0,150), (150,0), cap 3 and dry-run, the loop
processes /a/1, /IMAGE01, /gallery/2 in that order with outcomes
(true,0), (true,1), (true,0), ends with processed 3 for the cap reason,
and performs exactly one further scroll-to-bottom (after the cap is
already reached) before terminating. -/
theorem scenario_end_to_end :
    linksC9 = ["/a/1", "/IMAGE01", "/gallery/2"] ∧
      deleteC9 "/a/1" = (true, 0) ∧
      deleteC9 "/IMAGE01" = (true, 1) ∧
      deleteC9 "/gallery/2" = (true, 0) ∧
      runC9.1 = some StopReason.capReached ∧
      runC9.2.processed = 3 ∧
      runC9.2.order = ["/a/1", "/IMAGE01", "/gallery/2"] ∧
      runC9.2.bottomScrolls = 1 := by decide

/-- C10: every outcome delete_one returns reports at most one image, so
every processed link contributes exactly one unit; consequently a run
started from the fresh state never takes processed past the cap, and a
run that stops for the cap reason ends with processed exactly equal to
the cap. -/
theorem outcomes_unit_processed_cap :
    (∀ env href dry, ((delete_one env href dry).outcome).2 ≤ 1) ∧
      (∀ env href dry, linkInc ((delete_one env href dry).outcome) = 1) ∧
      (∀ (envOf : String → PageEnv) (dry : Bool) (cap : Nat) (obs : Nat → GridObs)
        (fuel t : Nat),
        (runLoop (fun h => (delete_one (envOf h) h dry).outcome) cap obs fuel t
            initLoopState).2.processed ≤ cap ∧
          ((runLoop (fun h => (delete_one (envOf h) h dry).outcome) cap obs fuel t
                initLoopState).1 = some StopReason.capReached →
            (runLoop (fun h => (delete_one (envOf h) h dry).outcome) cap obs fuel t
                initLoopState).2.processed = cap)) := by
  refine ⟨delete_one_snd_le_one, ?_, ?_⟩
  · intro env href dry
    exact linkInc_eq_one (delete_one_snd_le_one env href dry)
  · intro envOf dry cap obs fuel t
    have hone : ∀ h, linkInc ((fun h => (delete_one (envOf h) h dry).outcome) h) = 1 :=
      fun h => linkInc_eq_one (delete_one_snd_le_one _ _ _)
    exact ⟨runLoop_le_cap _ cap obs hone fuel t initLoopState (Nat.zero_le cap),
      runLoop_capReached_exact _ cap obs hone fuel t initLoopState (Nat.zero_le cap)⟩

/-- C10, witness: a dry run over two image links with cap 2 stops for
the cap reason with processed exactly 2. -/
theorem outcomes_unit_processed_cap_check :
    (runLoop (fun h => (delete_one (envOfW h) h true).outcome) 2 obsW 6 0
        initLoopState).2.processed = 2 :=
  (outcomes_unit_processed_cap.2.2 envOfW true 2 obsW 6 0).2 (by decide)
